import Mathlib

/-!
# Verification of the arcadejs UV-sphere generators

Shallow embedding of the two Python sphere generators of the repository:
`res/model/sphere.py` (the "res" variant, building a `mesh` record) and
`public/model/sphere/sphere.py` (the "public" variant, building a `polygon`
record via `sphere(cx, cy, cz, slices, stacks, radius)`), together with the
CLI glue shared by both (argument parsing, validation, JSON emission).

Modelling conventions:
* Python floats are modelled as real numbers `ℝ`; `math.cos`/`math.sin`/
  `math.pi` become `Real.cos`/`Real.sin`/`Real.pi`.
* Python ints are modelled as `ℤ`; `range(0, n)` for an integer `n` is
  `List.range n.toNat` (empty when `n ≤ 0`, matching Python).
* A Python list built by successive `append`s inside nested `for` loops is
  the corresponding `List.range ... |>.bind`/`.map` expression, in emission
  order.
* Index triples are ordered triples `ℤ × ℤ × ℤ`; the res variant encodes a
  triple as the 3-element array `[a, b, c]`, the public variant as the object
  `{"x": a, "y": b, "z": c}` — both are the same ordered triple.
-/

/-- A 3D point or direction, the `{"x": .., "y": .., "z": ..}` objects of the
output document. -/
@[ext]
structure Vec3 where
  x : ℝ
  y : ℝ
  z : ℝ

/-- A texture coordinate, the `{"u": .., "v": ..}` objects of the output
document. -/
@[ext]
structure UV where
  u : ℝ
  v : ℝ

/-- The fixed material record both programs embed in their output document. -/
structure Material where
  ambientMap : String
  heightMap : String
  normalMap : String
  reflectionMap : String
  shininess : ℤ

/-- `{"ambientMap": "sphere-ambient.png", ..., "shininess": 100}` -/
def defaultMaterial : Material :=
  ⟨"sphere-ambient.png", "sphere-height.png", "sphere-normal.png",
   "sphere-reflection.png", 100⟩

/-- Arguments of the `json.dump` call: `indent = True, sort_keys = True`.
In Python `True` is the integer `1`, and `json` renders a non-string numeric
`indent` as `' ' * indent`, so the per-level indent is `1` space. -/
structure DumpArgs where
  indent : ℤ
  sortKeys : Bool

/-- CPython's rendering of an integer `indent` argument: `' ' * indent`
(the empty string when `indent ≤ 0`). -/
def indentSpaces (n : ℤ) : String :=
  String.mk (List.replicate n.toNat ' ')

/-- Outcome of one program run: process exit code, the message written to
stderr (if any), and the document written to stdout (if any). -/
structure CLIResult (D : Type) where
  exitCode : ℤ
  errOutput : Option String
  output : Option D

/-- `"usage: " + sys.argv[0] + " <slices> <stacks> [<radius>]\n"` -/
def usageMessage (argv : List String) : String :=
  "usage: " ++ (argv.headD "") ++ " <slices> <stacks> [<radius>]\n"

/-- `"error: slices and stacks must be >= 2\n"` -/
def rangeErrorMessage : String := "error: slices and stacks must be >= 2\n"

/-- The `try:` block of both programs. `radius = int(sys.argv[3])` when
`len(sys.argv) >= 4` else `1`; `slices = int(sys.argv[1])`;
`stacks = int(sys.argv[2])`. A missing argument (IndexError) or a failed
`int` parse (ValueError) is caught by the bare `except:` — here, any `none`
collapses the whole result to `none`. `pyInt` abstracts Python's
`int(string)` parse. The result triple is `(slices, stacks, radius)`. -/
def parseArgs (pyInt : String → Option ℤ) (argv : List String) :
    Option (ℤ × ℤ × ℤ) :=
  match (if 4 ≤ argv.length then argv[3]? >>= pyInt else some 1),
      argv[1]? >>= pyInt, argv[2]? >>= pyInt with
  | some radius, some slices, some stacks' => some (slices, stacks', radius)
  | _, _, _ => none

namespace ResSphere

/-- `mesh["coords"]`: top `{u: 0.5, v: 0}`, then for `i in range(0, stacks'-1)`
and `j in range(0, slices+1)` the sample `{u: float(j)/slices,
v: float(i+1)/stacks'}`, then bottom `{u: 0.5, v: 1}`. -/
noncomputable def coords (slices stacks' : ℤ) : List UV :=
  (⟨0.5, 0⟩ : UV) ::
    ((List.range (stacks' - 1).toNat).flatMap fun (i : ℕ) =>
      (List.range (slices + 1).toNat).map fun (j : ℕ) =>
        (⟨(j : ℝ) / (slices : ℝ), ((i : ℝ) + 1) / (stacks' : ℝ)⟩ : UV))
    ++ [(⟨0.5, 1⟩ : UV)]

/-- `mesh["normals"]`: top `(0,1,0)`, middle samples
`(cos b · sin a, cos a, sin b · sin a)` with `a = (i+1)·π/stacks'` and
`b = j·π·2/slices`, bottom `(0,-1,0)`. -/
noncomputable def normals (slices stacks' : ℤ) : List Vec3 :=
  (⟨0, 1, 0⟩ : Vec3) ::
    ((List.range (stacks' - 1).toNat).flatMap fun (i : ℕ) =>
      (List.range (slices + 1).toNat).map fun (j : ℕ) =>
        (⟨Real.cos ((j : ℝ) * Real.pi * 2 / (slices : ℝ)) *
            Real.sin (((i : ℝ) + 1) * Real.pi / (stacks' : ℝ)),
          Real.cos (((i : ℝ) + 1) * Real.pi / (stacks' : ℝ)),
          Real.sin ((j : ℝ) * Real.pi * 2 / (slices : ℝ)) *
            Real.sin (((i : ℝ) + 1) * Real.pi / (stacks' : ℝ))⟩ : Vec3))
    ++ [(⟨0, -1, 0⟩ : Vec3)]

/-- `mesh["points"]`: top `(0, radius, 0)`, middle samples
`(x·radius, y·radius, z·radius)` for the direction `(x, y, z)` of `normals`,
bottom `(0, -radius, 0)`. -/
noncomputable def points (slices stacks' : ℤ) (radius : ℝ) : List Vec3 :=
  (⟨0, radius, 0⟩ : Vec3) ::
    ((List.range (stacks' - 1).toNat).flatMap fun (i : ℕ) =>
      (List.range (slices + 1).toNat).map fun (j : ℕ) =>
        (⟨Real.cos ((j : ℝ) * Real.pi * 2 / (slices : ℝ)) *
            Real.sin (((i : ℝ) + 1) * Real.pi / (stacks' : ℝ)) * radius,
          Real.cos (((i : ℝ) + 1) * Real.pi / (stacks' : ℝ)) * radius,
          Real.sin ((j : ℝ) * Real.pi * 2 / (slices : ℝ)) *
            Real.sin (((i : ℝ) + 1) * Real.pi / (stacks' : ℝ)) * radius⟩ : Vec3))
    ++ [(⟨0, -radius, 0⟩ : Vec3)]

/-- Top fan: for `i in range(0, slices)` the triple
`[shift + i + 1, shift + i, fixed]` with `fixed = 0`, `shift = 1`. -/
def topTriangles (slices : ℤ) : List (ℤ × ℤ × ℤ) :=
  (List.range slices.toNat).map fun (i : ℕ) => (1 + (i : ℤ) + 1, 1 + (i : ℤ), 0)

/-- Quad strips: for `i in range(0, stacks'-2)` and `j in range(0, slices)`,
with `shift = 1 + i*(slices+1)`, the two triples
`[shift+j, shift+j+1, shift+j+slices+1]` and
`[shift+j+slices+1, shift+j+1, shift+j+slices+2]`. -/
def quadTriangles (slices stacks' : ℤ) : List (ℤ × ℤ × ℤ) :=
  (List.range (stacks' - 2).toNat).flatMap fun (i : ℕ) =>
    (List.range slices.toNat).flatMap fun (j : ℕ) =>
      [(1 + (i : ℤ) * (slices + 1) + (j : ℤ),
        1 + (i : ℤ) * (slices + 1) + (j : ℤ) + 1,
        1 + (i : ℤ) * (slices + 1) + (j : ℤ) + slices + 1),
       (1 + (i : ℤ) * (slices + 1) + (j : ℤ) + slices + 1,
        1 + (i : ℤ) * (slices + 1) + (j : ℤ) + 1,
        1 + (i : ℤ) * (slices + 1) + (j : ℤ) + slices + 2)]

/-- Bottom fan: for `i in range(0, slices)` the triple
`[fixed, shift + i, shift + i + 1]` with `fixed = 1 + (stacks'-1)*(slices+1)`
and `shift = 1 + (stacks'-2)*(slices+1)`. -/
def bottomTriangles (slices stacks' : ℤ) : List (ℤ × ℤ × ℤ) :=
  (List.range slices.toNat).map fun (i : ℕ) =>
    (1 + (stacks' - 1) * (slices + 1),
     1 + (stacks' - 2) * (slices + 1) + (i : ℤ),
     1 + (stacks' - 2) * (slices + 1) + (i : ℤ) + 1)

/-- `mesh["triangles"]`, in emission order: top fan, quad strips, bottom
fan. -/
def triangles (slices stacks' : ℤ) : List (ℤ × ℤ × ℤ) :=
  topTriangles slices ++ quadTriangles slices stacks' ++
    bottomTriangles slices stacks'

/-- The `mesh` dictionary of `res/model/sphere.py`. -/
structure Mesh where
  coords : List UV
  materialName : String
  normals : List Vec3
  points : List Vec3
  triangles : List (ℤ × ℤ × ℤ)

/-- The fully built `mesh` value. -/
noncomputable def mesh (slices stacks' : ℤ) (radius : ℝ) : Mesh :=
  ⟨coords slices stacks', "default", normals slices stacks',
   points slices stacks' radius, triangles slices stacks'⟩

/-- The document `json.dump` writes: the fixed materials map and the single
mesh. -/
structure Document where
  materials : List (String × Material)
  meshes : List Mesh

/-- The concrete document for given parameters. -/
noncomputable def document (slices stacks' : ℤ) (radius : ℝ) : Document :=
  ⟨[("default", defaultMaterial)], [mesh slices stacks' radius]⟩

/-- `json.dump(..., indent = True, sort_keys = True)`; Python's `True` is the
integer `1`. -/
def dumpArgs : DumpArgs := ⟨1, true⟩

/-- The whole program `res/model/sphere.py`: parse, validate, emit. -/
noncomputable def main (pyInt : String → Option ℤ) (argv : List String) :
    CLIResult Document :=
  match parseArgs pyInt argv with
  | none => ⟨0, some (usageMessage argv), none⟩
  | some (slices, stacks', radius) =>
    if slices < 2 ∨ stacks' < 2 then ⟨1, some rangeErrorMessage, none⟩
    else ⟨0, none, some (document slices stacks' (radius : ℝ))⟩

end ResSphere

namespace PubSphere

/-- `polygon["coordinates"]` of `sphere(cx, cy, cz, slices, stacks, radius)`
in `public/model/sphere/sphere.py`: same samples as the res variant. -/
noncomputable def coordinates (slices stacks' : ℤ) : List UV :=
  (⟨0.5, 0⟩ : UV) ::
    ((List.range (stacks' - 1).toNat).flatMap fun (i : ℕ) =>
      (List.range (slices + 1).toNat).map fun (j : ℕ) =>
        (⟨(j : ℝ) / (slices : ℝ), ((i : ℝ) + 1) / (stacks' : ℝ)⟩ : UV))
    ++ [(⟨0.5, 1⟩ : UV)]

/-- `polygon["normals"]`: top `(0,1,0)`, middle
`(cos b · sin a, cos a, sin b · sin a)`, bottom `(0,-1,0)`; the center offset
does not occur in these expressions. -/
noncomputable def pNormals (slices stacks' : ℤ) : List Vec3 :=
  (⟨0, 1, 0⟩ : Vec3) ::
    ((List.range (stacks' - 1).toNat).flatMap fun (i : ℕ) =>
      (List.range (slices + 1).toNat).map fun (j : ℕ) =>
        (⟨Real.cos ((j : ℝ) * Real.pi * 2 / (slices : ℝ)) *
            Real.sin (((i : ℝ) + 1) * Real.pi / (stacks' : ℝ)),
          Real.cos (((i : ℝ) + 1) * Real.pi / (stacks' : ℝ)),
          Real.sin ((j : ℝ) * Real.pi * 2 / (slices : ℝ)) *
            Real.sin (((i : ℝ) + 1) * Real.pi / (stacks' : ℝ))⟩ : Vec3))
    ++ [(⟨0, -1, 0⟩ : Vec3)]

/-- `polygon["positions"]`: top `(cx, cy + radius, cz)`, middle
`(cx + x·radius, cy + y·radius, cz + z·radius)`, bottom
`(cx, cy - radius, cz)`. -/
noncomputable def positions (cx cy cz : ℝ) (slices stacks' : ℤ) (radius : ℝ) :
    List Vec3 :=
  (⟨cx, cy + radius, cz⟩ : Vec3) ::
    ((List.range (stacks' - 1).toNat).flatMap fun (i : ℕ) =>
      (List.range (slices + 1).toNat).map fun (j : ℕ) =>
        (⟨cx + Real.cos ((j : ℝ) * Real.pi * 2 / (slices : ℝ)) *
            Real.sin (((i : ℝ) + 1) * Real.pi / (stacks' : ℝ)) * radius,
          cy + Real.cos (((i : ℝ) + 1) * Real.pi / (stacks' : ℝ)) * radius,
          cz + Real.sin ((j : ℝ) * Real.pi * 2 / (slices : ℝ)) *
            Real.sin (((i : ℝ) + 1) * Real.pi / (stacks' : ℝ)) * radius⟩ : Vec3))
    ++ [(⟨cx, cy - radius, cz⟩ : Vec3)]

/-- `polygon["indices"]`, in emission order: top fan (`{x: shift+i+1,
y: shift+i, z: fixed}` with `fixed = 0`, `shift = 1`), quad strips, bottom
fan — the same integer triples as the res variant, encoded as `{x, y, z}`
objects. -/
def indices (slices stacks' : ℤ) : List (ℤ × ℤ × ℤ) :=
  ((List.range slices.toNat).map fun (i : ℕ) =>
    ((1 + (i : ℤ) + 1, 1 + (i : ℤ), 0) : ℤ × ℤ × ℤ)) ++
  ((List.range (stacks' - 2).toNat).flatMap fun (i : ℕ) =>
    (List.range slices.toNat).flatMap fun (j : ℕ) =>
      [(1 + (i : ℤ) * (slices + 1) + (j : ℤ),
        1 + (i : ℤ) * (slices + 1) + (j : ℤ) + 1,
        1 + (i : ℤ) * (slices + 1) + (j : ℤ) + slices + 1),
       (1 + (i : ℤ) * (slices + 1) + (j : ℤ) + slices + 1,
        1 + (i : ℤ) * (slices + 1) + (j : ℤ) + 1,
        1 + (i : ℤ) * (slices + 1) + (j : ℤ) + slices + 2)]) ++
  ((List.range slices.toNat).map fun (i : ℕ) =>
    ((1 + (stacks' - 1) * (slices + 1),
      1 + (stacks' - 2) * (slices + 1) + (i : ℤ),
      1 + (stacks' - 2) * (slices + 1) + (i : ℤ) + 1) : ℤ × ℤ × ℤ))

/-- The `polygon` dictionary returned by `sphere`. -/
structure Polygon where
  coordinates : List UV
  indices : List (ℤ × ℤ × ℤ)
  materialName : String
  normals : List Vec3
  positions : List Vec3

/-- `sphere(cx, cy, cz, slices, stacks, radius)`. -/
noncomputable def sphere (cx cy cz : ℝ) (slices stacks' : ℤ) (radius : ℝ) :
    Polygon :=
  ⟨coordinates slices stacks', indices slices stacks', "default",
   pNormals slices stacks', positions cx cy cz slices stacks' radius⟩

/-- The document `json.dump` writes: the fixed materials map and the
`polygons` list. `itertools.product([0], [0], [0])` yields the single center
`(0, 0, 0)`. -/
structure Document where
  materials : List (String × Material)
  polygons : List Polygon

/-- The concrete document for given parameters. -/
noncomputable def document (slices stacks' : ℤ) (radius : ℝ) : Document :=
  ⟨[("default", defaultMaterial)], [sphere 0 0 0 slices stacks' radius]⟩

/-- `json.dump(..., indent=True, sort_keys=True)`; Python's `True` is the
integer `1`. -/
def dumpArgs : DumpArgs := ⟨1, true⟩

/-- The whole program `public/model/sphere/sphere.py`: parse, validate,
emit. -/
noncomputable def main (pyInt : String → Option ℤ) (argv : List String) :
    CLIResult Document :=
  match parseArgs pyInt argv with
  | none => ⟨0, some (usageMessage argv), none⟩
  | some (slices, stacks', radius) =>
    if slices < 2 ∨ stacks' < 2 then ⟨1, some rangeErrorMessage, none⟩
    else ⟨0, none, some (document slices stacks' (radius : ℝ))⟩

end PubSphere

/-- The quad-strip triangle list exactly as the claim words it: for each
ring-pair `i` in `[0, stacks-3]` and each `j` in `[0, slices-1]`, with
`ringStart = 1 + i*(slices+1)`, the triangles
`(ringStart+j, ringStart+j+1, ringStart+j+slices+1)` and
`(ringStart+j+slices+1, ringStart+j+1, ringStart+j+slices+2)`, in that
order. -/
def claimQuadStrip (slices stacks' : ℤ) : List (ℤ × ℤ × ℤ) :=
  (List.range (stacks' - 2).toNat).flatMap fun (i : ℕ) =>
    (List.range slices.toNat).flatMap fun (j : ℕ) =>
      let ringStart : ℤ := 1 + (i : ℤ) * (slices + 1)
      [(ringStart + (j : ℤ), ringStart + (j : ℤ) + 1,
        ringStart + (j : ℤ) + slices + 1),
       (ringStart + (j : ℤ) + slices + 1, ringStart + (j : ℤ) + 1,
        ringStart + (j : ℤ) + slices + 2)]

section Helpers

/-- Length of a `flatMap` whose pieces all have length `m`. -/
theorem length_flatMap_const {α β : Type} {g : α → List β} {m : ℕ}
    (l : List α) (hg : ∀ a ∈ l, (g a).length = m) :
    (l.flatMap g).length = l.length * m := by
  induction l with
  | nil => simp
  | cons a l ih =>
    simp only [List.flatMap_cons, List.length_append, List.length_cons,
      hg a (List.mem_cons_self a l),
      ih fun b hb => hg b (List.mem_cons_of_mem a hb)]
    ring

end Helpers

/-- C1: for every `slices ≥ 2`, `stacks ≥ 2` and any radius (and any center,
in the public variant), both generators produce exactly
`2 + (stacks-1)*(slices+1)` positions, normals and texture coordinates, and
exactly `2*slices*(stacks-1)` triangles. -/
theorem C1_vertex_triangle_counts (slices stacks' : ℤ) (radius cx cy cz : ℝ)
    (hs : 2 ≤ slices) (ht : 2 ≤ stacks') :
    (((ResSphere.mesh slices stacks' radius).points.length : ℤ) =
        2 + (stacks' - 1) * (slices + 1) ∧
      ((ResSphere.mesh slices stacks' radius).normals.length : ℤ) =
        2 + (stacks' - 1) * (slices + 1) ∧
      ((ResSphere.mesh slices stacks' radius).coords.length : ℤ) =
        2 + (stacks' - 1) * (slices + 1) ∧
      ((ResSphere.mesh slices stacks' radius).triangles.length : ℤ) =
        2 * slices * (stacks' - 1)) ∧
    (((PubSphere.sphere cx cy cz slices stacks' radius).positions.length : ℤ) =
        2 + (stacks' - 1) * (slices + 1) ∧
      ((PubSphere.sphere cx cy cz slices stacks' radius).normals.length : ℤ) =
        2 + (stacks' - 1) * (slices + 1) ∧
      ((PubSphere.sphere cx cy cz slices stacks'
          radius).coordinates.length : ℤ) =
        2 + (stacks' - 1) * (slices + 1) ∧
      ((PubSphere.sphere cx cy cz slices stacks' radius).indices.length : ℤ) =
        2 * slices * (stacks' - 1)) := by
  have h1 : (((stacks' - 1).toNat : ℤ)) = stacks' - 1 :=
    Int.toNat_of_nonneg (by omega)
  have h2 : (((slices + 1).toNat : ℤ)) = slices + 1 :=
    Int.toNat_of_nonneg (by omega)
  have h3 : ((slices.toNat : ℤ)) = slices := Int.toNat_of_nonneg (by omega)
  have h4 : (((stacks' - 2).toNat : ℤ)) = stacks' - 2 :=
    Int.toNat_of_nonneg (by omega)
  have hmid : ∀ {β : Type} (f : ℕ → ℕ → β),
      (((List.range (stacks' - 1).toNat).flatMap fun i =>
        (List.range (slices + 1).toNat).map (f i)).length) =
        (stacks' - 1).toNat * (slices + 1).toNat := by
    intro β f
    rw [length_flatMap_const (m := (slices + 1).toNat)]
    · rw [List.length_range]
    · intro a _
      rw [List.length_map, List.length_range]
  have hquad : ∀ {β : Type} (A B : ℕ → ℕ → β),
      (((List.range (stacks' - 2).toNat).flatMap fun i =>
        (List.range slices.toNat).flatMap fun j =>
          [A i j, B i j]).length) =
        (stacks' - 2).toNat * (slices.toNat * 2) := by
    intro β A B
    rw [length_flatMap_const (m := slices.toNat * 2)]
    · rw [List.length_range]
    · intro a _
      rw [length_flatMap_const (m := 2)]
      · rw [List.length_range]
      · intro b _
        rfl
  refine ⟨⟨?_, ?_, ?_, ?_⟩, ?_, ?_, ?_, ?_⟩
  · show ((ResSphere.points slices stacks' radius).length : ℤ) = _
    simp only [ResSphere.points, List.length_append, List.length_cons, hmid,
      List.length_singleton, List.length_nil]
    push_cast [h1, h2]
    ring
  · show ((ResSphere.normals slices stacks').length : ℤ) = _
    simp only [ResSphere.normals, List.length_append, List.length_cons, hmid,
      List.length_singleton, List.length_nil]
    push_cast [h1, h2]
    ring
  · show ((ResSphere.coords slices stacks').length : ℤ) = _
    simp only [ResSphere.coords, List.length_append, List.length_cons, hmid,
      List.length_singleton, List.length_nil]
    push_cast [h1, h2]
    ring
  · show ((ResSphere.triangles slices stacks').length : ℤ) = _
    simp only [ResSphere.triangles, ResSphere.topTriangles,
      ResSphere.quadTriangles, ResSphere.bottomTriangles, List.length_append,
      List.length_map, List.length_range, hquad]
    push_cast [h3, h4]
    ring
  · show ((PubSphere.positions cx cy cz slices stacks' radius).length : ℤ) = _
    simp only [PubSphere.positions, List.length_append, List.length_cons,
      hmid, List.length_singleton, List.length_nil]
    push_cast [h1, h2]
    ring
  · show ((PubSphere.pNormals slices stacks').length : ℤ) = _
    simp only [PubSphere.pNormals, List.length_append, List.length_cons, hmid,
      List.length_singleton, List.length_nil]
    push_cast [h1, h2]
    ring
  · show ((PubSphere.coordinates slices stacks').length : ℤ) = _
    simp only [PubSphere.coordinates, List.length_append, List.length_cons,
      hmid, List.length_singleton, List.length_nil]
    push_cast [h1, h2]
    ring
  · show ((PubSphere.indices slices stacks').length : ℤ) = _
    simp only [PubSphere.indices, List.length_append, List.length_map,
      List.length_range, hquad]
    push_cast [h3, h4]
    ring

/-- Witness for C1 at the spec's CLI scenario `slices = 4`, `stacks = 3`:
12 vertices and 16 triangles. -/
theorem C1_witness :
    ((ResSphere.mesh 4 3 1).points.length : ℤ) = 2 + (3 - 1) * (4 + 1) ∧
    ((PubSphere.sphere 0 0 0 4 3 1).indices.length : ℤ) = 2 * 4 * (3 - 1) :=
  ⟨(C1_vertex_triangle_counts 4 3 1 0 0 0 (by decide) (by decide)).1.1,
   (C1_vertex_triangle_counts 4 3 1 0 0 0 (by decide) (by decide)).2.2.2.2⟩

/-- C2: for every `slices ≥ 2` and `stacks ≥ 2`, the quad-strip section of
both index buffers (everything between the top fan and the bottom fan) is
exactly the list of the claim, and for `stacks = 2` it is empty, leaving
only the two fans. -/
theorem C2_quad_strip_section (slices stacks' : ℤ)
    (hs : 2 ≤ slices) (ht : 2 ≤ stacks') :
    ResSphere.triangles slices stacks' =
      ResSphere.topTriangles slices ++ claimQuadStrip slices stacks' ++
        ResSphere.bottomTriangles slices stacks' ∧
    PubSphere.indices slices stacks' =
      ResSphere.topTriangles slices ++ claimQuadStrip slices stacks' ++
        ResSphere.bottomTriangles slices stacks' ∧
    (stacks' = 2 →
      claimQuadStrip slices stacks' = [] ∧
      ResSphere.triangles slices stacks' =
        ResSphere.topTriangles slices ++
          ResSphere.bottomTriangles slices stacks' ∧
      PubSphere.indices slices stacks' =
        ResSphere.topTriangles slices ++
          ResSphere.bottomTriangles slices stacks') := by
  refine ⟨rfl, rfl, fun h => ?_⟩
  subst h
  refine ⟨rfl, ?_, ?_⟩
  · show ResSphere.topTriangles slices ++ claimQuadStrip slices 2 ++
      ResSphere.bottomTriangles slices 2 = _
    show ResSphere.topTriangles slices ++ [] ++
      ResSphere.bottomTriangles slices 2 = _
    rw [List.append_nil]
  · show ResSphere.topTriangles slices ++ claimQuadStrip slices 2 ++
      ResSphere.bottomTriangles slices 2 = _
    show ResSphere.topTriangles slices ++ [] ++
      ResSphere.bottomTriangles slices 2 = _
    rw [List.append_nil]

/-- Witness for C2 at `slices = 2`, `stacks = 2`: the degenerate minimum
case has no quad strip. -/
theorem C2_witness :
    ResSphere.triangles 2 2 =
      ResSphere.topTriangles 2 ++ claimQuadStrip 2 2 ++
        ResSphere.bottomTriangles 2 2 ∧
    claimQuadStrip 2 2 = [] :=
  ⟨(C2_quad_strip_section 2 2 (by decide) (by decide)).1,
   ((C2_quad_strip_section 2 2 (by decide) (by decide)).2.2 rfl).1⟩

/-- C3: for every `slices ≥ 2` and `stacks ≥ 2`, every triangle of both
index buffers has three pairwise-distinct indices, each within
`[0, vertexCount)` for `vertexCount = 2 + (stacks-1)*(slices+1)`. -/
theorem C3_indices_distinct_in_range (slices stacks' : ℤ)
    (hs : 2 ≤ slices) (ht : 2 ≤ stacks') :
    (∀ t ∈ ResSphere.triangles slices stacks',
      (t.1 ≠ t.2.1 ∧ t.1 ≠ t.2.2 ∧ t.2.1 ≠ t.2.2) ∧
      0 ≤ t.1 ∧ t.1 < 2 + (stacks' - 1) * (slices + 1) ∧
      0 ≤ t.2.1 ∧ t.2.1 < 2 + (stacks' - 1) * (slices + 1) ∧
      0 ≤ t.2.2 ∧ t.2.2 < 2 + (stacks' - 1) * (slices + 1)) ∧
    (∀ t ∈ PubSphere.indices slices stacks',
      (t.1 ≠ t.2.1 ∧ t.1 ≠ t.2.2 ∧ t.2.1 ≠ t.2.2) ∧
      0 ≤ t.1 ∧ t.1 < 2 + (stacks' - 1) * (slices + 1) ∧
      0 ≤ t.2.1 ∧ t.2.1 < 2 + (stacks' - 1) * (slices + 1) ∧
      0 ≤ t.2.2 ∧ t.2.2 < 2 + (stacks' - 1) * (slices + 1)) := by
  have key : ∀ t ∈ ResSphere.triangles slices stacks',
      (t.1 ≠ t.2.1 ∧ t.1 ≠ t.2.2 ∧ t.2.1 ≠ t.2.2) ∧
      0 ≤ t.1 ∧ t.1 < 2 + (stacks' - 1) * (slices + 1) ∧
      0 ≤ t.2.1 ∧ t.2.1 < 2 + (stacks' - 1) * (slices + 1) ∧
      0 ≤ t.2.2 ∧ t.2.2 < 2 + (stacks' - 1) * (slices + 1) := by
    intro t htmem
    simp only [ResSphere.triangles, List.mem_append] at htmem
    rcases htmem with (hmem | hmem) | hmem
    · simp only [ResSphere.topTriangles, List.mem_map, List.mem_range]
        at hmem
      obtain ⟨i, hi, rfl⟩ := hmem
      have hP : slices + 1 ≤ (stacks' - 1) * (slices + 1) := by nlinarith
      set P := (stacks' - 1) * (slices + 1)
      dsimp only
      omega
    · simp only [ResSphere.quadTriangles, List.mem_flatMap, List.mem_range,
        List.mem_cons, List.not_mem_nil, or_false] at hmem
      obtain ⟨i, hi, j, hj, hmem⟩ := hmem
      have hQ0 : 0 ≤ (i : ℤ) * (slices + 1) :=
        mul_nonneg (Int.natCast_nonneg i) (by omega)
      have hQP : (i : ℤ) * (slices + 1) + 2 * (slices + 1) ≤
          (stacks' - 1) * (slices + 1) := by
        have hi' : (i : ℤ) ≤ stacks' - 3 := by omega
        nlinarith
      set Q := (i : ℤ) * (slices + 1)
      set P := (stacks' - 1) * (slices + 1)
      rcases hmem with rfl | rfl
      · dsimp only
        omega
      · dsimp only
        omega
    · simp only [ResSphere.bottomTriangles, List.mem_map, List.mem_range]
        at hmem
      obtain ⟨i, hi, rfl⟩ := hmem
      have hR0 : 0 ≤ (stacks' - 2) * (slices + 1) :=
        mul_nonneg (by omega) (by omega)
      have hRP : (stacks' - 2) * (slices + 1) + (slices + 1) =
          (stacks' - 1) * (slices + 1) := by ring
      set R := (stacks' - 2) * (slices + 1)
      set P := (stacks' - 1) * (slices + 1)
      dsimp only
      omega
  exact ⟨key, fun t htm => key t htm⟩

/-- Witness for C3 at `slices = 2`, `stacks = 2`, checking the first
triangle of the buffer. -/
theorem C3_witness :
    (2, 1, 0) ∈ ResSphere.triangles 2 2 ∧
    ((2 : ℤ) ≠ 1 ∧ (2 : ℤ) ≠ 0 ∧ (1 : ℤ) ≠ 0) ∧
    (0 : ℤ) ≤ 2 ∧ (2 : ℤ) < 2 + (2 - 1) * (2 + 1) ∧
    (0 : ℤ) ≤ 1 ∧ (1 : ℤ) < 2 + (2 - 1) * (2 + 1) ∧
    (0 : ℤ) ≤ 0 ∧ (0 : ℤ) < 2 + (2 - 1) * (2 + 1) :=
  ⟨by decide,
   (C3_indices_distinct_in_range 2 2 (by decide) (by decide)).1
     (2, 1, 0) (by decide)⟩

/-- Element `q*m + r` of a `flatMap` over `List.range n` whose pieces all
have length `m` is element `r` of piece `q`. -/
theorem getElem?_flatMap_const {β : Type} (g : ℕ → List β) (m : ℕ)
    (hg : ∀ i, (g i).length = m) :
    ∀ (n q r : ℕ), q < n → r < m →
      ((List.range n).flatMap g)[q * m + r]? = (g q)[r]? := by
  intro n
  induction n with
  | zero => exact fun q r hq _ => absurd hq (Nat.not_lt_zero q)
  | succ n ih =>
    intro q r hq hr
    have hlen : ((List.range n).flatMap g).length = n * m := by
      rw [length_flatMap_const (m := m) _ fun a _ => hg a, List.length_range]
    rw [List.range_succ n, List.flatMap_append, List.flatMap_cons,
      List.flatMap_nil, List.append_nil]
    rcases Nat.lt_or_ge q n with h | h
    · rw [List.getElem?_append_left (by
        rw [hlen]
        calc q * m + r < q * m + m := by omega
          _ = (q + 1) * m := by ring
          _ ≤ n * m := Nat.mul_le_mul_right m (by omega))]
      exact ih q r h hr
    · have hq' : q = n := by omega
      subst hq'
      rw [List.getElem?_append_right (by rw [hlen]; exact Nat.le_add_right _ r),
        hlen]
      congr 1
      omega

/-- Element `1 + (q*m + r)` of a vertex list of the shape
`(top :: middle-rings) ++ [bottom]` — with `n` rings of `m` samples each —
is sample `r` of ring `q`. -/
theorem vertexList_get_map {β : Type} (v0 vl : β) (f : ℕ → ℕ → β)
    (n m q r : ℕ) (hq : q < n) (hr : r < m) :
    ((v0 :: (List.range n).flatMap fun i => (List.range m).map (f i)) ++
      [vl])[1 + (q * m + r)]? = some (f q r) := by
  have hg : ∀ i, ((List.range m).map (f i)).length = m := fun i => by
    rw [List.length_map, List.length_range]
  have hmidlen : ((List.range n).flatMap fun i =>
      (List.range m).map (f i)).length = n * m := by
    rw [length_flatMap_const (m := m) _ fun a _ => hg a, List.length_range]
  rw [List.getElem?_append_left (by
    rw [List.length_cons, hmidlen]
    have : q * m + r < n * m :=
      calc q * m + r < q * m + m := by omega
        _ = (q + 1) * m := by ring
        _ ≤ n * m := Nat.mul_le_mul_right m (by omega)
    omega)]
  rw [Nat.add_comm 1 (q * m + r), List.getElem?_cons_succ,
    getElem?_flatMap_const _ m hg n q r hq hr, List.getElem?_map,
    List.getElem?_range hr]
  rfl

/-- C4: for every `slices ≥ 2`, `stacks ≥ 2` and each middle ring `i`, the
vertex at slice-sample `0` and the vertex at slice-sample `slices` (list
positions `1 + i*(slices+1)` and `1 + i*(slices+1) + slices`) have identical
position and identical normal, while their `u` texture coordinates are `0`
and `1` and their `v` coordinates agree — in both variants. -/
theorem C4_seam_duplication (slices stacks' : ℤ) (radius cx cy cz : ℝ)
    (hs : 2 ≤ slices) (ht : 2 ≤ stacks') (i : ℕ)
    (hi : (i : ℤ) < stacks' - 1) :
    ((ResSphere.points slices stacks' radius)[1 +
        (i * (slices + 1).toNat + 0)]? =
      (ResSphere.points slices stacks' radius)[1 +
        (i * (slices + 1).toNat + slices.toNat)]? ∧
     (ResSphere.normals slices stacks')[1 + (i * (slices + 1).toNat + 0)]? =
      (ResSphere.normals slices stacks')[1 +
        (i * (slices + 1).toNat + slices.toNat)]? ∧
     ((ResSphere.coords slices stacks')[1 +
        (i * (slices + 1).toNat + 0)]?).map UV.u = some 0 ∧
     ((ResSphere.coords slices stacks')[1 +
        (i * (slices + 1).toNat + slices.toNat)]?).map UV.u = some 1 ∧
     ((ResSphere.coords slices stacks')[1 +
        (i * (slices + 1).toNat + 0)]?).map UV.v =
      ((ResSphere.coords slices stacks')[1 +
        (i * (slices + 1).toNat + slices.toNat)]?).map UV.v) ∧
    ((PubSphere.positions cx cy cz slices stacks' radius)[1 +
        (i * (slices + 1).toNat + 0)]? =
      (PubSphere.positions cx cy cz slices stacks' radius)[1 +
        (i * (slices + 1).toNat + slices.toNat)]? ∧
     (PubSphere.pNormals slices stacks')[1 + (i * (slices + 1).toNat + 0)]? =
      (PubSphere.pNormals slices stacks')[1 +
        (i * (slices + 1).toNat + slices.toNat)]? ∧
     ((PubSphere.coordinates slices stacks')[1 +
        (i * (slices + 1).toNat + 0)]?).map UV.u = some 0 ∧
     ((PubSphere.coordinates slices stacks')[1 +
        (i * (slices + 1).toNat + slices.toNat)]?).map UV.u = some 1 ∧
     ((PubSphere.coordinates slices stacks')[1 +
        (i * (slices + 1).toNat + 0)]?).map UV.v =
      ((PubSphere.coordinates slices stacks')[1 +
        (i * (slices + 1).toNat + slices.toNat)]?).map UV.v) := by
  have hq : i < (stacks' - 1).toNat := by omega
  have hr0 : 0 < (slices + 1).toNat := by omega
  have hrs : slices.toNat < (slices + 1).toNat := by omega
  have hsne : ((slices : ℝ)) ≠ 0 := by
    have h2 : (0 : ℤ) < slices := by omega
    exact ne_of_gt (by exact_mod_cast h2)
  have hc : ((slices.toNat : ℝ)) = ((slices : ℤ) : ℝ) := by
    rw [← Int.cast_natCast, Int.toNat_of_nonneg (by omega : (0 : ℤ) ≤ slices)]
  have hb : ((slices : ℤ) : ℝ) * Real.pi * 2 / ((slices : ℤ) : ℝ) =
      2 * Real.pi := by
    field_simp
    ring
  refine ⟨⟨?_, ?_, ?_, ?_, ?_⟩, ?_, ?_, ?_, ?_, ?_⟩
  · rw [ResSphere.points, vertexList_get_map _ _ _ _ _ i 0 hq hr0,
      vertexList_get_map _ _ _ _ _ i slices.toNat hq hrs]
    simp [hc, hb]
  · rw [ResSphere.normals, vertexList_get_map _ _ _ _ _ i 0 hq hr0,
      vertexList_get_map _ _ _ _ _ i slices.toNat hq hrs]
    simp [hc, hb]
  · rw [ResSphere.coords, vertexList_get_map _ _ _ _ _ i 0 hq hr0]
    simp
  · rw [ResSphere.coords, vertexList_get_map _ _ _ _ _ i slices.toNat hq hrs]
    simp [hc, div_self hsne]
  · rw [ResSphere.coords, vertexList_get_map _ _ _ _ _ i 0 hq hr0,
      vertexList_get_map _ _ _ _ _ i slices.toNat hq hrs]
    simp
  · rw [PubSphere.positions, vertexList_get_map _ _ _ _ _ i 0 hq hr0,
      vertexList_get_map _ _ _ _ _ i slices.toNat hq hrs]
    simp [hc, hb]
  · rw [PubSphere.pNormals, vertexList_get_map _ _ _ _ _ i 0 hq hr0,
      vertexList_get_map _ _ _ _ _ i slices.toNat hq hrs]
    simp [hc, hb]
  · rw [PubSphere.coordinates, vertexList_get_map _ _ _ _ _ i 0 hq hr0]
    simp
  · rw [PubSphere.coordinates,
      vertexList_get_map _ _ _ _ _ i slices.toNat hq hrs]
    simp [hc, div_self hsne]
  · rw [PubSphere.coordinates, vertexList_get_map _ _ _ _ _ i 0 hq hr0,
      vertexList_get_map _ _ _ _ _ i slices.toNat hq hrs]
    simp

/-- Witness for C4 at `slices = 2`, `stacks = 2`, ring `0`: list positions
`1` and `3` carry the same point, and the latter has `u = 1`. -/
theorem C4_witness :
    (ResSphere.points 2 2 1)[1 + (0 * ((2 : ℤ) + 1).toNat + 0)]? =
      (ResSphere.points 2 2 1)[1 +
        (0 * ((2 : ℤ) + 1).toNat + (2 : ℤ).toNat)]? ∧
    ((ResSphere.coords 2 2)[1 +
      (0 * ((2 : ℤ) + 1).toNat + (2 : ℤ).toNat)]?).map UV.u = some 1 :=
  ⟨(C4_seam_duplication 2 2 1 0 0 0 (by decide) (by decide) 0
      (by decide)).1.1,
   (C4_seam_duplication 2 2 1 0 0 0 (by decide) (by decide) 0
      (by decide)).1.2.2.2.1⟩

/-- C5: with center `(0,0,0)` and equal parameters, the public variant
produces, element by element and in the same order, the same coordinates,
normals, positions and index triples as the res variant (modulo the field
renaming and the triple-as-object vs triple-as-array encoding, which the
embedding identifies). -/
theorem C5_variants_equivalent (slices stacks' : ℤ) (radius : ℝ)
    (hs : 2 ≤ slices) (ht : 2 ≤ stacks') :
    (PubSphere.sphere 0 0 0 slices stacks' radius).coordinates =
      (ResSphere.mesh slices stacks' radius).coords ∧
    (PubSphere.sphere 0 0 0 slices stacks' radius).normals =
      (ResSphere.mesh slices stacks' radius).normals ∧
    (PubSphere.sphere 0 0 0 slices stacks' radius).positions =
      (ResSphere.mesh slices stacks' radius).points ∧
    (PubSphere.sphere 0 0 0 slices stacks' radius).indices =
      (ResSphere.mesh slices stacks' radius).triangles ∧
    (PubSphere.sphere 0 0 0 slices stacks' radius).materialName =
      (ResSphere.mesh slices stacks' radius).materialName := by
  refine ⟨rfl, rfl, ?_, rfl, rfl⟩
  show PubSphere.positions 0 0 0 slices stacks' radius =
    ResSphere.points slices stacks' radius
  rw [PubSphere.positions, ResSphere.points]
  simp only [zero_add, zero_sub]

/-- Witness for C5 at `slices = 2`, `stacks = 2`, `radius = 1`. -/
theorem C5_witness :
    (PubSphere.sphere 0 0 0 2 2 1).positions =
      (ResSphere.mesh 2 2 1).points ∧
    (PubSphere.sphere 0 0 0 2 2 1).indices =
      (ResSphere.mesh 2 2 1).triangles :=
  ⟨(C5_variants_equivalent 2 2 1 (by decide) (by decide)).2.2.1,
   (C5_variants_equivalent 2 2 1 (by decide) (by decide)).2.2.2.1⟩

/-- C6: translating the center translates every generated position
componentwise and leaves the normals untouched. -/
theorem C6_translation_invariance (cx cy cz : ℝ) (slices stacks' : ℤ)
    (radius : ℝ) (hs : 2 ≤ slices) (ht : 2 ≤ stacks') :
    (PubSphere.sphere cx cy cz slices stacks' radius).positions =
      ((PubSphere.sphere 0 0 0 slices stacks' radius).positions).map
        (fun p => ⟨cx + p.x, cy + p.y, cz + p.z⟩) ∧
    (PubSphere.sphere cx cy cz slices stacks' radius).normals =
      (PubSphere.sphere 0 0 0 slices stacks' radius).normals := by
  refine ⟨?_, rfl⟩
  show PubSphere.positions cx cy cz slices stacks' radius =
    (PubSphere.positions 0 0 0 slices stacks' radius).map _
  rw [PubSphere.positions, PubSphere.positions]
  simp only [List.map_append, List.map_cons, List.map_flatMap, List.map_map,
    Function.comp_def, zero_add, add_zero, zero_sub, List.map_nil,
    sub_eq_add_neg]

/-- Witness for C6 at center `(1, 2, 3)`, `slices = 2`, `stacks = 2`. -/
theorem C6_witness :
    (PubSphere.sphere 1 2 3 2 2 1).positions =
      ((PubSphere.sphere 0 0 0 2 2 1).positions).map
        (fun p => ⟨1 + p.x, 2 + p.y, 3 + p.z⟩) ∧
    (PubSphere.sphere 1 2 3 2 2 1).normals =
      (PubSphere.sphere 0 0 0 2 2 1).normals :=
  C6_translation_invariance 1 2 3 2 2 1 (by decide) (by decide)

/-- The `try:` block fails (and the bare `except:` fires) when an argument is
missing or one of the used arguments does not parse as an integer. -/
theorem parseArgs_eq_none (pyInt : String → Option ℤ) (argv : List String)
    (h : argv.length < 3 ∨
      (∃ s1, argv[1]? = some s1 ∧ pyInt s1 = none) ∨
      (∃ s2, argv[2]? = some s2 ∧ pyInt s2 = none) ∨
      (4 ≤ argv.length ∧ ∃ s3, argv[3]? = some s3 ∧ pyInt s3 = none)) :
    parseArgs pyInt argv = none := by
  rw [parseArgs]
  rcases h with h | ⟨s1, hs1, hp1⟩ | ⟨s2, hs2, hp2⟩ | ⟨h4, s3, hs3, hp3⟩ <;>
    cases hA : (if 4 ≤ argv.length then argv[3]? >>= pyInt else some 1) <;>
    cases hB : argv[1]? >>= pyInt <;>
    cases hC : argv[2]? >>= pyInt <;>
    try rfl
  all_goals exfalso
  · rw [List.getElem?_eq_none (by omega : argv.length ≤ 2)] at hC
    exact Option.noConfusion hC
  · rw [hs1] at hB
    rw [show some s1 >>= pyInt = pyInt s1 from rfl, hp1] at hB
    exact Option.noConfusion hB
  · rw [hs2] at hC
    rw [show some s2 >>= pyInt = pyInt s2 from rfl, hp2] at hC
    exact Option.noConfusion hC
  · rw [if_pos h4, hs3] at hA
    rw [show some s3 >>= pyInt = pyInt s3 from rfl, hp3] at hA
    exact Option.noConfusion hA

/-- The `try:` block succeeds when every used argument parses. -/
theorem parseArgs_eq_some (pyInt : String → Option ℤ) (argv : List String)
    (s t r : ℤ) (h1 : argv[1]? >>= pyInt = some s)
    (h2 : argv[2]? >>= pyInt = some t)
    (h3 : (if 4 ≤ argv.length then argv[3]? >>= pyInt else some 1) =
      some r) :
    parseArgs pyInt argv = some (s, t, r) := by
  rw [parseArgs, h1, h2, h3]

/-- C7: with fewer than 2 positional arguments, or when the slices, stacks
or radius argument fails integer parsing, both programs write the usage
message to stderr and exit with code 0, writing no document to stdout. -/
theorem C7_usage_error_exits_zero (pyInt : String → Option ℤ)
    (argv : List String)
    (h : argv.length < 3 ∨
      (∃ s1, argv[1]? = some s1 ∧ pyInt s1 = none) ∨
      (∃ s2, argv[2]? = some s2 ∧ pyInt s2 = none) ∨
      (4 ≤ argv.length ∧ ∃ s3, argv[3]? = some s3 ∧ pyInt s3 = none)) :
    ResSphere.main pyInt argv = ⟨0, some (usageMessage argv), none⟩ ∧
    PubSphere.main pyInt argv = ⟨0, some (usageMessage argv), none⟩ := by
  have hp := parseArgs_eq_none pyInt argv h
  constructor
  · rw [ResSphere.main, hp]
  · rw [PubSphere.main, hp]

/-- Witness for C7: running with no positional arguments at all. -/
theorem C7_witness :
    ResSphere.main String.toInt? ["sphere.py"] =
      ⟨0, some (usageMessage ["sphere.py"]), none⟩ ∧
    PubSphere.main String.toInt? ["sphere.py"] =
      ⟨0, some (usageMessage ["sphere.py"]), none⟩ :=
  C7_usage_error_exits_zero String.toInt? ["sphere.py"] (Or.inl (by decide))

/-- C8: when all given arguments parse as integers but `slices < 2` or
`stacks < 2`, both programs write the range error to stderr and exit with
code 1, writing no document to stdout (the tessellation never runs). -/
theorem C8_invalid_parameter_exits_one (pyInt : String → Option ℤ)
    (argv : List String) (s t r : ℤ)
    (h1 : argv[1]? >>= pyInt = some s) (h2 : argv[2]? >>= pyInt = some t)
    (h3 : (if 4 ≤ argv.length then argv[3]? >>= pyInt else some 1) = some r)
    (hlt : s < 2 ∨ t < 2) :
    ResSphere.main pyInt argv = ⟨1, some rangeErrorMessage, none⟩ ∧
    PubSphere.main pyInt argv = ⟨1, some rangeErrorMessage, none⟩ := by
  have hp := parseArgs_eq_some pyInt argv s t r h1 h2 h3
  constructor
  · rw [ResSphere.main, hp]
    exact if_pos hlt
  · rw [PubSphere.main, hp]
    exact if_pos hlt

/-- Witness for C8 at the spec's CLI scenario `("1", "5")`, with a concrete
parser mapping `"1"` to `1` and `"5"` to `5` as Python's `int` does. -/
theorem C8_witness :
    ResSphere.main
      (fun s => if s = "1" then some 1 else if s = "5" then some 5 else none)
      ["sphere.py", "1", "5"] = ⟨1, some rangeErrorMessage, none⟩ ∧
    PubSphere.main
      (fun s => if s = "1" then some 1 else if s = "5" then some 5 else none)
      ["sphere.py", "1", "5"] = ⟨1, some rangeErrorMessage, none⟩ :=
  C8_invalid_parameter_exits_one
    (fun s => if s = "1" then some 1 else if s = "5" then some 5 else none)
    ["sphere.py", "1", "5"] 1 5 1
    (by decide) (by decide) (by decide) (Or.inl (by decide))

/-- Counterexample for C9: both programs call `json.dump` with
`indent = True`. Python's `True` is the integer `1` and `json` renders a
non-string integer indent as `' ' * indent`, so the emitted per-level
indentation is one space, not the two-space-equivalent indentation the
claim asserts. -/
theorem C9_counterexample :
    indentSpaces ResSphere.dumpArgs.indent = " " ∧
    indentSpaces PubSphere.dumpArgs.indent = " " ∧
    indentSpaces ResSphere.dumpArgs.indent ≠ "  " ∧
    indentSpaces PubSphere.dumpArgs.indent ≠ "  " := by
  refine ⟨rfl, rfl, ?_, ?_⟩ <;> decide

/-- C9 (amended): on success — all used arguments parse as integers,
`slices ≥ 2`, `stacks ≥ 2` — both programs write their JSON document to
stdout with sorted object keys and one-space-per-level indentation
(`indent=True` is the integer `1`), write nothing to stderr, and exit with
code 0. -/
theorem C9_success_emits_document (pyInt : String → Option ℤ)
    (argv : List String) (s t r : ℤ)
    (h1 : argv[1]? >>= pyInt = some s) (h2 : argv[2]? >>= pyInt = some t)
    (h3 : (if 4 ≤ argv.length then argv[3]? >>= pyInt else some 1) = some r)
    (hs : 2 ≤ s) (ht : 2 ≤ t) :
    ResSphere.main pyInt argv =
      ⟨0, none, some (ResSphere.document s t (r : ℝ))⟩ ∧
    PubSphere.main pyInt argv =
      ⟨0, none, some (PubSphere.document s t (r : ℝ))⟩ ∧
    ResSphere.dumpArgs.sortKeys = true ∧
    PubSphere.dumpArgs.sortKeys = true ∧
    indentSpaces ResSphere.dumpArgs.indent = " " ∧
    indentSpaces PubSphere.dumpArgs.indent = " " := by
  have hp := parseArgs_eq_some pyInt argv s t r h1 h2 h3
  refine ⟨?_, ?_, rfl, rfl, rfl, rfl⟩
  · rw [ResSphere.main, hp]
    exact if_neg (by omega)
  · rw [PubSphere.main, hp]
    exact if_neg (by omega)

/-- Witness for C9 (amended) at the spec's CLI scenario `("4", "3")`:
default radius 1, exit 0. -/
theorem C9_witness :
    ResSphere.main
      (fun s => if s = "4" then some 4 else if s = "3" then some 3 else none)
      ["sphere.py", "4", "3"] =
      ⟨0, none, some (ResSphere.document 4 3 ((1 : ℤ) : ℝ))⟩ ∧
    PubSphere.main
      (fun s => if s = "4" then some 4 else if s = "3" then some 3 else none)
      ["sphere.py", "4", "3"] =
      ⟨0, none, some (PubSphere.document 4 3 ((1 : ℤ) : ℝ))⟩ :=
  have h := C9_success_emits_document
    (fun s => if s = "4" then some 4 else if s = "3" then some 3 else none)
    ["sphere.py", "4", "3"] 4 3 1
    (by decide) (by decide) (by decide) (by decide) (by decide)
  ⟨h.1, h.2.1⟩

/-- C10: the CLI validates only slices and stacks, never the radius: any
parsed integer radius (zero and negative included) yields exit code 0 and
an emitted document. The positions are the normals scaled by the radius
about the center (radius 0 collapses every position onto the center), and
the emitted normals do not depend on the radius at all. -/
theorem C10_radius_never_validated (pyInt : String → Option ℤ)
    (argv : List String) (s t r : ℤ) (cx cy cz : ℝ)
    (h1 : argv[1]? >>= pyInt = some s) (h2 : argv[2]? >>= pyInt = some t)
    (h3 : (if 4 ≤ argv.length then argv[3]? >>= pyInt else some 1) = some r)
    (hs : 2 ≤ s) (ht : 2 ≤ t) :
    ResSphere.main pyInt argv =
      ⟨0, none, some (ResSphere.document s t (r : ℝ))⟩ ∧
    PubSphere.main pyInt argv =
      ⟨0, none, some (PubSphere.document s t (r : ℝ))⟩ ∧
    ResSphere.points s t (r : ℝ) =
      (ResSphere.normals s t).map
        (fun n => ⟨n.x * (r : ℝ), n.y * (r : ℝ), n.z * (r : ℝ)⟩) ∧
    PubSphere.positions cx cy cz s t (r : ℝ) =
      (PubSphere.pNormals s t).map
        (fun n => ⟨cx + n.x * (r : ℝ), cy + n.y * (r : ℝ),
          cz + n.z * (r : ℝ)⟩) ∧
    PubSphere.positions cx cy cz s t 0 =
      (PubSphere.pNormals s t).map (fun _ => ⟨cx, cy, cz⟩) ∧
    PubSphere.positions cx cy cz s t (-(r : ℝ)) =
      (PubSphere.positions cx cy cz s t (r : ℝ)).map
        (fun p => ⟨cx - (p.x - cx), cy - (p.y - cy), cz - (p.z - cz)⟩) ∧
    (∀ r' : ℝ, (ResSphere.mesh s t (r : ℝ)).normals =
        (ResSphere.mesh s t r').normals ∧
      (PubSphere.sphere cx cy cz s t (r : ℝ)).normals =
        (PubSphere.sphere cx cy cz s t r').normals) := by
  have hp := parseArgs_eq_some pyInt argv s t r h1 h2 h3
  refine ⟨?_, ?_, ?_, ?_, ?_, ?_, fun r' => ⟨rfl, rfl⟩⟩
  · rw [ResSphere.main, hp]
    exact if_neg (by omega)
  · rw [PubSphere.main, hp]
    exact if_neg (by omega)
  · rw [ResSphere.points, ResSphere.normals]
    simp only [List.map_append, List.map_cons, List.map_flatMap,
      List.map_map, Function.comp_def, List.map_nil, zero_mul, one_mul,
      neg_mul]
  · rw [PubSphere.positions, PubSphere.pNormals]
    simp only [List.map_append, List.map_cons, List.map_flatMap,
      List.map_map, Function.comp_def, List.map_nil, zero_mul, one_mul,
      neg_mul, mul_zero, add_zero, sub_eq_add_neg]
  · rw [PubSphere.positions, PubSphere.pNormals]
    simp only [List.map_append, List.map_cons, List.map_flatMap,
      List.map_map, Function.comp_def, List.map_nil, mul_zero, add_zero,
      sub_zero]
  · rw [PubSphere.positions, PubSphere.positions]
    simp only [List.map_append, List.map_cons, List.map_flatMap,
      List.map_map, Function.comp_def, List.map_nil, mul_neg,
      add_sub_cancel_left, sub_sub_cancel_left, sub_self, sub_zero,
      sub_neg_eq_add, ← sub_eq_add_neg]

/-- Witness for C10: radius `0` passed on the command line is accepted. -/
theorem C10_witness :
    ResSphere.main
      (fun s => if s = "2" then some 2 else if s = "0" then some 0 else none)
      ["sphere.py", "2", "2", "0"] =
      ⟨0, none, some (ResSphere.document 2 2 ((0 : ℤ) : ℝ))⟩ ∧
    ResSphere.points 2 2 ((0 : ℤ) : ℝ) =
      (ResSphere.normals 2 2).map
        (fun n => ⟨n.x * ((0 : ℤ) : ℝ), n.y * ((0 : ℤ) : ℝ),
          n.z * ((0 : ℤ) : ℝ)⟩) :=
  have h := C10_radius_never_validated
    (fun s => if s = "2" then some 2 else if s = "0" then some 0 else none)
    ["sphere.py", "2", "2", "0"] 2 2 0 0 0 0
    (by decide) (by decide) (by decide) (by decide) (by decide)
  ⟨h.1, h.2.2.1⟩
